import Mathlib

/-!
Shallow embedding of src/libs/nrf24l01/src/transport.cpp
(nRF24L01 network transport adapter for Apache Mynewt OIC).

Modelling conventions:
* The module's static variables (network_device, server, socket, transport_id)
  form an explicit state record threaded through the functions.
* A C assert whose condition fails aborts the process; we model every function
  outcome as either a normal return with its return code, or an abort tagged
  with the failing assertion site.
* Side effects on external resources (device open/close, mbuf chain free,
  console output) are recorded in an explicit effect trace.
* Machine integers are Nat with explicit mod 256 where uint8_t overflow
  matters; the C initializer `uint8_t transport_id = -1` is modelled through
  an Int-to-uint8 conversion.
-/

namespace Nrf24Transport

/-- Convert a C int value to the Nat stored in a uint8_t variable
(two's-complement wraparound, i.e. value mod 256). -/
def uint8OfInt (i : Int) : Nat := (i % 256).toNat

/-- Model of `struct oc_endpoint` as used by this module: the OIC endpoint
header with its transport type tag `oe_type` and flags `oe_flags`
(both uint8_t). -/
structure OcEndpoint where
  oe_type : Nat
  oe_flags : Nat
  deriving Repr, DecidableEq

/-- Model of `struct nrf24l01_endpoint` (declared in nrf24l01/transport.h):
the OIC endpoint header plus the peer address (host and port).  The code only
reads `host` and `port` and compares them against the registered server, and
asserts both are nonzero (in C they are checked for truthiness). -/
structure Nrf24l01Endpoint where
  ep : OcEndpoint
  host : Nat
  port : Nat
  deriving Repr, DecidableEq

/-- Modelled from the spec: the Endpoint Identity is "a fixed-size value"
(spec section 3); `struct nrf24l01_endpoint` itself is declared in
nrf24l01/transport.h which is outside src/, so its concrete byte size is not
derivable here.  We pin a representative constant; no claim in this
development depends on the particular value, only on it being fixed and
below 256 (the uint8_t return range of `oc_ep_size`). -/
def sizeof_nrf24l01_endpoint : Nat := 6

/-- Model of `struct nrf24l01_server`: the CoAP server endpoint plus the
self-pointing `handle` field set by `init_nrf24l01_server` (modelled as a
flag recording whether it was set). -/
structure Nrf24l01Server where
  endpoint : Nrf24l01Endpoint
  handle_set : Bool
  deriving Repr, DecidableEq

/-- Model of an os_mbuf chain as seen by this module: the user-header length
of the first mbuf, the endpoint stored in that user header
(`OC_MBUF_ENDPOINT(m)`, None modelling a null pointer), and the payload
bytes.  A null `struct os_mbuf *` argument is modelled as Option.none at the
call site. -/
structure MbufChain where
  usrhdr_len : Nat
  endpoint : Option Nrf24l01Endpoint
  payload : List Nat
  deriving Repr, DecidableEq

/-- The module's static variables (transport.cpp lines 17-20):
`network_device` (initially NULL), `server` (initially NULL), `socket`
(initially NULL and never assigned anywhere in the module, modelled as a
flag), and `transport_id` (uint8_t, initialized to -1, i.e. 255). -/
structure TransportState where
  network_device : Option String
  server : Option Nrf24l01Server
  socket_set : Bool
  transport_id : Nat
  deriving Repr, DecidableEq

/-- The state at process start: all statics NULL, transport_id = (uint8_t)-1. -/
def initState : TransportState :=
  { network_device := none
    server := none
    socket_set := false
    transport_id := uint8OfInt (-1) }

/-- Assertion sites in transport.cpp, identifying which `assert(...)`
aborted. -/
inductive AssertSite where
  | argDeviceNull      -- assert(network_device0), line 38
  | argServerNull      -- assert(server0), line 38
  | regDevOpenFail     -- assert(dev != NULL), line 42
  | regTransportId     -- assert(transport_id >= 0), line 46
  | regInitServerRc    -- assert(rc == 0), line 50
  | epTransportId      -- assert(transport_id >= 0), line 71
  | mNull              -- assert(m), line 91
  | usrhdrLen          -- assert(OS_MBUF_USRHDR_LEN(m) >= sizeof ...), line 91
  | epNull             -- assert(endpoint), line 94
  | epHostZero         -- assert(endpoint->host), line 94
  | epPortZero         -- assert(endpoint->port), line 94
  | serverNull         -- assert(server), line 95
  | hostMatch          -- assert(endpoint->host == server->endpoint.host), line 95
  | portMatch          -- assert(endpoint->port == server->endpoint.port), line 95
  | deviceNameNull     -- assert(network_device), line 96
  | socketNull         -- assert(socket), line 96
  | txDevOpenFail      -- assert(dev != NULL), line 101
  | txPositive         -- assert(rc > 0), line 106
  | freeChainRc        -- assert(rc == 0), line 113
  deriving Repr, DecidableEq

/-- Outcome of a C function call: a normal return carrying the int return
code (0 for void returns), or a process abort at a failed assertion. -/
inductive COutcome where
  | ret (rc : Int)
  | abortAt (site : AssertSite)
  deriving Repr, DecidableEq

/-- Externally visible effects performed by a call, in order. -/
inductive Effect where
  | devOpen (name : String)   -- os_dev_open
  | devClose                  -- os_dev_close
  | freeChain                 -- os_mbuf_free_chain
  | consoleOut (s : String)   -- console_printf
  deriving Repr, DecidableEq

/-- Result of running one embedded C function: its outcome, the effect trace
accumulated up to the return or the abort, and the module state afterwards. -/
structure RunResult where
  outcome : COutcome
  trace : List Effect
  state : TransportState
  deriving Repr, DecidableEq

/-- Environment for calls into external subsystems: which device names
`os_dev_open` resolves (true means a non-NULL handle is returned), and the
transport id value returned by `oc_transport_register`. -/
structure Env where
  dev_exists : String → Bool
  oc_reg_result : Int

/-- The C check `transport_id >= 0` where `transport_id` is uint8_t: the
operand is promoted to int keeping its value (0..255), so the comparison is
against that natural number. -/
def transport_id_ge0 (v : Nat) : Bool := decide (0 ≤ (v : Int))

/-- Embedding of `init_nrf24l01_endpoint` (transport.cpp lines 69-75):
asserts `transport_id >= 0`, stamps `ep.oe_type := transport_id` and
`ep.oe_flags := 0`, returns 0.  Takes and returns the endpoint by value
(the C mutates it through a pointer). -/
def init_nrf24l01_endpoint (st : TransportState) (e : Nrf24l01Endpoint) :
    COutcome × Nrf24l01Endpoint :=
  if transport_id_ge0 st.transport_id then
    (COutcome.ret 0,
     { e with ep := { oe_type := st.transport_id, oe_flags := 0 } })
  else
    (COutcome.abortAt AssertSite.epTransportId, e)

/-- Embedding of `init_nrf24l01_server` (transport.cpp lines 62-67):
inits the server's endpoint (asserting the inner rc is 0), sets the server's
handle to itself, returns 0. -/
def init_nrf24l01_server (st : TransportState) (s : Nrf24l01Server) :
    COutcome × Nrf24l01Server :=
  match init_nrf24l01_endpoint st s.endpoint with
  | (COutcome.ret rc, e) =>
      if rc = 0 then
        (COutcome.ret 0, { s with endpoint := e, handle_set := true })
      else
        (COutcome.abortAt AssertSite.regInitServerRc, { s with endpoint := e })
  | (COutcome.abortAt site, e) =>
      (COutcome.abortAt site, { s with endpoint := e })

/-- Embedding of `nrf24l01_register_transport` (transport.cpp lines 35-60):
asserts the arguments are non-NULL, opens the named device (asserting
success), stores `oc_transport_register`'s result into the uint8_t
`transport_id` and asserts it is >= 0, inits the server endpoint, stores the
device name and server, closes the device, returns 0.  The second component
of the result pairs carries nothing extra: the returned RunResult's state
holds the updated statics. -/
def nrf24l01_register_transport (env : Env) (st : TransportState)
    (network_device0 : Option String) (server0 : Option Nrf24l01Server) :
    RunResult :=
  match network_device0 with
  | none => ⟨COutcome.abortAt AssertSite.argDeviceNull, [], st⟩
  | some nd =>
    match server0 with
    | none => ⟨COutcome.abortAt AssertSite.argServerNull, [], st⟩
    | some srv =>
      if env.dev_exists nd then
        -- transport_id = oc_transport_register(&transport); assert(transport_id >= 0)
        let tid := uint8OfInt env.oc_reg_result
        let st1 := { st with transport_id := tid }
        if transport_id_ge0 tid then
          match init_nrf24l01_server st1 srv with
          | (COutcome.ret rc, srv1) =>
            if rc = 0 then
              let st2 := { st1 with network_device := some nd, server := some srv1 }
              ⟨COutcome.ret 0, [Effect.devOpen nd, Effect.devClose], st2⟩
            else
              ⟨COutcome.abortAt AssertSite.regInitServerRc, [Effect.devOpen nd], st1⟩
          | (COutcome.abortAt site, _) =>
              ⟨COutcome.abortAt site, [Effect.devOpen nd], st1⟩
        else
          ⟨COutcome.abortAt AssertSite.regTransportId, [Effect.devOpen nd], st1⟩
      else
        ⟨COutcome.abortAt AssertSite.regDevOpenFail, [], st⟩

/-- Embedding of `nrf24l01_tx_mbuf` (transport.cpp lines 80-85): the frame
transmit path.  In the source this is a TODO stub: `int rc = 0; return rc;`
regardless of the device or the mbuf chain. -/
def nrf24l01_tx_mbuf (dev : String) (m : MbufChain) : Int := 0

/-- Embedding of `oc_tx_ucast` (transport.cpp lines 87-114): asserts the
chain and its attached endpoint are well formed, asserts the endpoint
address equals the registered server's, asserts the statics are set, opens
the device, transmits via `nrf24l01_tx_mbuf` asserting a positive byte
count, closes the device, and frees the chain asserting rc == 0.  Returns
void (modelled as ret 0). -/
def oc_tx_ucast (env : Env) (st : TransportState) (m : Option MbufChain) :
    RunResult :=
  match m with
  | none => ⟨COutcome.abortAt AssertSite.mNull, [], st⟩
  | some mb =>
    if mb.usrhdr_len < sizeof_nrf24l01_endpoint then
      ⟨COutcome.abortAt AssertSite.usrhdrLen, [], st⟩
    else
      match mb.endpoint with
      | none => ⟨COutcome.abortAt AssertSite.epNull, [], st⟩
      | some ep =>
        if ep.host = 0 then ⟨COutcome.abortAt AssertSite.epHostZero, [], st⟩
        else if ep.port = 0 then ⟨COutcome.abortAt AssertSite.epPortZero, [], st⟩
        else
          match st.server with
          | none => ⟨COutcome.abortAt AssertSite.serverNull, [], st⟩
          | some srv =>
            if ep.host ≠ srv.endpoint.host then
              ⟨COutcome.abortAt AssertSite.hostMatch, [], st⟩
            else if ep.port ≠ srv.endpoint.port then
              ⟨COutcome.abortAt AssertSite.portMatch, [], st⟩
            else
              match st.network_device with
              | none => ⟨COutcome.abortAt AssertSite.deviceNameNull, [], st⟩
              | some nd =>
                if ¬ st.socket_set then
                  ⟨COutcome.abortAt AssertSite.socketNull, [], st⟩
                else if env.dev_exists nd then
                  let t0 := [Effect.devOpen nd, Effect.consoleOut "nrf tx mbuf"]
                  let rc := nrf24l01_tx_mbuf nd mb
                  if rc > 0 then
                    -- os_dev_close; os_mbuf_free_chain (returns 0); assert rc == 0
                    ⟨COutcome.ret 0, t0 ++ [Effect.devClose, Effect.freeChain], st⟩
                  else
                    ⟨COutcome.abortAt AssertSite.txPositive, t0, st⟩
                else
                  ⟨COutcome.abortAt AssertSite.txDevOpenFail, [], st⟩

/-- Embedding of `oc_ep_size` (transport.cpp lines 116-119): returns
`sizeof(struct nrf24l01_endpoint)` truncated to uint8_t, ignoring the
endpoint argument. -/
def oc_ep_size (oe : Nrf24l01Endpoint) : Nat := sizeof_nrf24l01_endpoint % 256

/-- Embedding of `oc_ep_has_conn` (transport.cpp lines 121-125): logs and
returns 0 for every endpoint. -/
def oc_ep_has_conn (oe : Nrf24l01Endpoint) : Int × List Effect :=
  (0, [Effect.consoleOut "oc_ep_has_conn"])

/-- The string literal the active code of `oc_ep_str` copies into the caller
buffer (the NOTUSED block is compiled out). -/
def oc_ep_str_msg : List Nat :=
  "TODO:oc_ep_str".data.map Char.toNat

/-- Byte writes performed by `strcpy(ptr, s)`: every byte of s followed by
the NUL terminator, at offsets 0, 1, ....  Each entry is (offset, byte). -/
def strcpy_writes (s : List Nat) : List (Nat × Nat) :=
  (s ++ [0]).enum

/-- Embedding of `oc_ep_str` (transport.cpp lines 127-140): logs, then
`strcpy(ptr, "TODO:oc_ep_str")` regardless of maxlen and of the endpoint;
returns the list of (offset, byte) writes into the caller's buffer. -/
def oc_ep_str (maxlen : Int) (oe : Option Nrf24l01Endpoint) :
    List (Nat × Nat) :=
  strcpy_writes oc_ep_str_msg

/-- Discriminator: did the call return normally (as opposed to aborting)? -/
def COutcome.isRet : COutcome → Bool
  | COutcome.ret _ => true
  | COutcome.abortAt _ => false

/-! Concrete fixtures (the scenario of spec section 8: device "nrf24l01_0",
peer host 0xAB01, port 5683, a 20-byte payload). -/

/-- An environment where every device name resolves and the OIC registry
hands out transport id 1. -/
def envA : Env := { dev_exists := fun _ => true, oc_reg_result := 1 }

/-- A server descriptor before registration. -/
def srvA : Nrf24l01Server :=
  { endpoint := { ep := { oe_type := 0, oe_flags := 0 }, host := 0xAB01, port := 5683 }
    handle_set := false }

/-- A second, different server descriptor. -/
def srvB : Nrf24l01Server :=
  { endpoint := { ep := { oe_type := 0, oe_flags := 0 }, host := 0xAB02, port := 5684 }
    handle_set := false }

/-- The server value as stored after registration with transport id 1
(endpoint stamped, handle set). -/
def srvReg : Nrf24l01Server :=
  { endpoint := { ep := { oe_type := 1, oe_flags := 0 }, host := 0xAB01, port := 5683 }
    handle_set := true }

/-- The module state after the program's one successful registration of
device "nrf24l01_0" with peer (0xAB01, 5683) under envA.  Note socket_set is
false: the static `socket` is never assigned anywhere in transport.cpp. -/
def regSt : TransportState :=
  { network_device := some "nrf24l01_0"
    server := some srvReg
    socket_set := false
    transport_id := 1 }

/-- regSt with the socket hypothetically present, to probe the code past the
`assert(socket)` line. -/
def regStSock : TransportState := { regSt with socket_set := true }

/-- A valid chain correctly addressed to the registered peer: user header
large enough, endpoint (0xAB01, 5683), 20 payload bytes. -/
def chainOK : MbufChain :=
  { usrhdr_len := sizeof_nrf24l01_endpoint
    endpoint := some { ep := { oe_type := 1, oe_flags := 0 }, host := 0xAB01, port := 5683 }
    payload := List.replicate 20 7 }

/-- A chain addressed to a host that differs from the registered peer. -/
def chainBad : MbufChain :=
  { usrhdr_len := sizeof_nrf24l01_endpoint
    endpoint := some { ep := { oe_type := 1, oe_flags := 0 }, host := 0xAB02, port := 5683 }
    payload := List.replicate 20 7 }

/-- An arbitrary endpoint with nonzero flags, to observe the flag-zeroing. -/
def epAny : Nrf24l01Endpoint :=
  { ep := { oe_type := 9, oe_flags := 7 }, host := 3, port := 4 }

/-- First call of the double-registration experiment. -/
def regRun1 : RunResult :=
  nrf24l01_register_transport envA initState (some "nrf24l01_0") (some srvA)

/-- Second call of the double-registration experiment, from the state the
first call left behind, with a different device and server. -/
def regRun2 : RunResult :=
  nrf24l01_register_transport envA regRun1.state (some "radio1") (some srvB)

/-! Helper lemmas shared by several claims. -/

/-- The C check `transport_id >= 0` on a uint8_t operand holds for every
stored value: the operand promotes to a nonnegative int. -/
theorem transport_id_ge0_eq_true (v : Nat) : transport_id_ge0 v = true := by
  simp [transport_id_ge0]

/-- Full evaluation of a registration call whose device exists: it returns
0, opens and closes the device exactly once, and stores the device name, the
initialized server, and the uint8-truncated registry result. -/
theorem register_success_eq (env : Env) (st : TransportState) (nd : String)
    (srv : Nrf24l01Server) (h : env.dev_exists nd = true) :
    nrf24l01_register_transport env st (some nd) (some srv) =
      ⟨COutcome.ret 0, [Effect.devOpen nd, Effect.devClose],
       { st with
         network_device := some nd
         server := some { srv with
           endpoint := { srv.endpoint with
             ep := { oe_type := uint8OfInt env.oc_reg_result, oe_flags := 0 } }
           handle_set := true }
         transport_id := uint8OfInt env.oc_reg_result }⟩ := by
  unfold nrf24l01_register_transport init_nrf24l01_server init_nrf24l01_endpoint
  simp [h, transport_id_ge0_eq_true]

/-! Claim theorems. -/

/-- Claim C7 (confirmed): the not-yet-registered guard of
`init_nrf24l01_endpoint` always passes: `transport_id` is a uint8_t variable
initialized to -1 (stored value 255), so the check `transport_id >= 0` is
true for every possible value; the function therefore always returns 0 and
stamps the current tag value (255 if unregistered) onto the endpoint. -/
theorem init_endpoint_guard_is_tautology :
    uint8OfInt (-1) = 255 ∧
    initState.transport_id = 255 ∧
    (∀ v : Nat, transport_id_ge0 v = true) ∧
    (∀ (st : TransportState) (e : Nrf24l01Endpoint),
      (init_nrf24l01_endpoint st e).1 = COutcome.ret 0 ∧
      ((init_nrf24l01_endpoint st e).2).ep.oe_type = st.transport_id) := by
  refine ⟨rfl, rfl, transport_id_ge0_eq_true, ?_⟩
  intro st e
  simp [init_nrf24l01_endpoint, transport_id_ge0_eq_true]

/-- Claim C6, counterexample: in the initial state no registration is ever
stored, so by the claim every endpoint-initialization call should fail with
NotRegistered; instead the call returns 0 normally (it is not an abort
either) and stamps oe_type = 255, oe_flags = 0. -/
theorem init_endpoint_unregistered_succeeds :
    (init_nrf24l01_endpoint initState epAny).1 = COutcome.ret 0 ∧
    ((init_nrf24l01_endpoint initState epAny).1).isRet = true ∧
    ((init_nrf24l01_endpoint initState epAny).2).ep.oe_type = 255 ∧
    ((init_nrf24l01_endpoint initState epAny).2).ep.oe_flags = 0 ∧
    initState.server = none := by decide

/-- Claim C6 (amended): `init_nrf24l01_endpoint` takes no tag argument and
never fails: its guard is a tautology on the unsigned `transport_id`, so in
every state — registered or not — it returns 0 and produces an endpoint
whose oe_type is the current transport_id (255 when unregistered) and whose
oe_flags is 0. -/
theorem init_endpoint_always_succeeds :
    ∀ (st : TransportState) (e : Nrf24l01Endpoint),
      (init_nrf24l01_endpoint st e).1 = COutcome.ret 0 ∧
      ((init_nrf24l01_endpoint st e).2).ep.oe_type = st.transport_id ∧
      ((init_nrf24l01_endpoint st e).2).ep.oe_flags = 0 := by
  intro st e
  simp [init_nrf24l01_endpoint, transport_id_ge0_eq_true]

/-- Claim C9 (confirmed): `oc_ep_size` ignores its argument and returns the
same value on every call, and that value is the fixed byte size of one
Endpoint Identity value (`sizeof(struct nrf24l01_endpoint)`). -/
theorem oc_ep_size_constant :
    ∀ (oe oe' : Nrf24l01Endpoint),
      oc_ep_size oe = oc_ep_size oe' ∧
      oc_ep_size oe = sizeof_nrf24l01_endpoint :=
  fun _ _ => ⟨rfl, rfl⟩

/-- Claim C10 (confirmed): `oc_ep_has_conn` returns 0 ("no persistent
connection") for every endpoint. -/
theorem oc_ep_has_conn_always_false :
    ∀ oe : Nrf24l01Endpoint, (oc_ep_has_conn oe).1 = 0 :=
  fun _ => rfl

/-- Claim C2, counterexample: after one successful registration (of
"nrf24l01_0" with srvA), a second call with different inputs does not fail
with AlreadyRegistered — it returns 0 again and overwrites the stored
device name (and server) with the new values. -/
theorem register_twice_succeeds :
    regRun1.outcome = COutcome.ret 0 ∧
    regRun1.state.network_device = some "nrf24l01_0" ∧
    regRun2.outcome = COutcome.ret 0 ∧
    regRun2.state.network_device = some "radio1" ∧
    regRun2.state.network_device ≠ regRun1.state.network_device := by decide

/-- Claim C2 (amended): registration is not guarded against repetition:
from any prior state — including an already-registered one — a call to
`nrf24l01_register_transport` whose device resolves returns 0 and overwrites
the stored device name, server, and transport tag with the new call's
values. -/
theorem register_not_guarded (env : Env) (st : TransportState) (nd : String)
    (srv : Nrf24l01Server) (h : env.dev_exists nd = true) :
    (nrf24l01_register_transport env st (some nd) (some srv)).outcome =
      COutcome.ret 0 ∧
    (nrf24l01_register_transport env st (some nd) (some srv)).state.network_device =
      some nd ∧
    (nrf24l01_register_transport env st (some nd) (some srv)).state.server =
      some { srv with
        endpoint := { srv.endpoint with
          ep := { oe_type := uint8OfInt env.oc_reg_result, oe_flags := 0 } }
        handle_set := true } ∧
    (nrf24l01_register_transport env st (some nd) (some srv)).state.transport_id =
      uint8OfInt env.oc_reg_result := by
  rw [register_success_eq env st nd srv h]
  exact ⟨rfl, rfl, rfl, rfl⟩

/-- Witness for register_not_guarded at the concrete fixture: envA resolves
every device name, in particular "radio1", from the registered state. -/
theorem register_not_guarded_witness :
    (nrf24l01_register_transport envA regSt (some "radio1") (some srvB)).outcome =
      COutcome.ret 0 :=
  (register_not_guarded envA regSt "radio1" srvB rfl).1

/-- Claim C8 (confirmed): a successful registration opens and closes the
named device exactly once and performs no other device operation (its
effect trace is exactly one open of that name followed by one close), and
before returning stores the device name, the peer descriptor (with its
endpoint initialized), and the allocated transport tag. -/
theorem register_session_exactly_once (env : Env) (st : TransportState)
    (nd : String) (srv : Nrf24l01Server) (h : env.dev_exists nd = true) :
    (nrf24l01_register_transport env st (some nd) (some srv)).outcome =
      COutcome.ret 0 ∧
    (nrf24l01_register_transport env st (some nd) (some srv)).trace =
      [Effect.devOpen nd, Effect.devClose] ∧
    (nrf24l01_register_transport env st (some nd) (some srv)).state.network_device =
      some nd ∧
    (nrf24l01_register_transport env st (some nd) (some srv)).state.server =
      some { srv with
        endpoint := { srv.endpoint with
          ep := { oe_type := uint8OfInt env.oc_reg_result, oe_flags := 0 } }
        handle_set := true } ∧
    (nrf24l01_register_transport env st (some nd) (some srv)).state.transport_id =
      uint8OfInt env.oc_reg_result := by
  rw [register_success_eq env st nd srv h]
  exact ⟨rfl, rfl, rfl, rfl, rfl⟩

/-- Witness for register_session_exactly_once: the spec's scenario, device
"nrf24l01_0" with peer (0xAB01, 5683), from the initial state. -/
theorem register_session_exactly_once_witness :
    (nrf24l01_register_transport envA initState (some "nrf24l01_0") (some srvA)).trace =
      [Effect.devOpen "nrf24l01_0", Effect.devClose] :=
  (register_session_exactly_once envA initState "nrf24l01_0" srvA rfl).2.1

/-- Claim C1, code-bug evidence: on a valid chain correctly addressed to the
registered peer, `oc_tx_ucast` never frees the chain and never completes a
session.  In the program's actual state (the static `socket` is never
assigned anywhere in the module) it aborts at `assert(socket)` with an empty
effect trace: no open, no close, no free.  Even if the socket were present,
the TODO stub `nrf24l01_tx_mbuf` returns 0, so the call aborts at
`assert(rc > 0)` after opening the device, without ever closing it or
freeing the chain. -/
theorem oc_tx_ucast_never_frees_chain :
    oc_tx_ucast envA regSt (some chainOK) =
      ⟨COutcome.abortAt AssertSite.socketNull, [], regSt⟩ ∧
    (oc_tx_ucast envA regStSock (some chainOK)).outcome =
      COutcome.abortAt AssertSite.txPositive ∧
    (oc_tx_ucast envA regStSock (some chainOK)).trace.count Effect.freeChain = 0 ∧
    (oc_tx_ucast envA regStSock (some chainOK)).trace.count Effect.devClose = 0 ∧
    (oc_tx_ucast envA regStSock (some chainOK)).trace.count
      (Effect.devOpen "nrf24l01_0") = 1 := by decide

/-- Claim C4, counterexample: with the registered peer (0xAB01, 5683) and a
chain addressed to host 0xAB02, `oc_tx_ucast` does not return a PeerMismatch
error — it has no error channel at all and does not return: it aborts the
process at the `assert(endpoint->host == server->endpoint.host)` site.  The
trace is empty, so in particular the device open primitive was not
invoked. -/
theorem oc_tx_ucast_mismatch_aborts :
    oc_tx_ucast envA regSt (some chainBad) =
      ⟨COutcome.abortAt AssertSite.hostMatch, [], regSt⟩ ∧
    ((oc_tx_ucast envA regSt (some chainBad)).outcome).isRet = false := by decide

/-- Claim C4 (amended): for every state with a registered server and every
chain whose attached endpoint address (host or port) differs from that
server's, `oc_tx_ucast` halts at an assertion (a fail-fast process abort,
not a PeerMismatch error result) and performs no device acquisition: its
effect trace is empty, so the device open primitive is never invoked. -/
theorem oc_tx_ucast_mismatch_no_acquire (env : Env) (st : TransportState)
    (mb : MbufChain) (ep : Nrf24l01Endpoint) (srv : Nrf24l01Server)
    (hep : mb.endpoint = some ep) (hsrv : st.server = some srv)
    (hmm : ep.host ≠ srv.endpoint.host ∨ ep.port ≠ srv.endpoint.port) :
    (∃ site, (oc_tx_ucast env st (some mb)).outcome = COutcome.abortAt site) ∧
    (oc_tx_ucast env st (some mb)).trace = [] := by
  simp only [oc_tx_ucast, hep, hsrv]
  split_ifs with h1 h2 h3 h4 h5 <;>
  first
  | exact ⟨⟨_, rfl⟩, rfl⟩
  | (exfalso; rcases hmm with h | h <;> simp_all)

/-- Witness for oc_tx_ucast_mismatch_no_acquire at the concrete fixture:
registered peer host 0xAB01, chain addressed to 0xAB02. -/
theorem oc_tx_ucast_mismatch_no_acquire_witness :
    (∃ site, (oc_tx_ucast envA regSt (some chainBad)).outcome =
      COutcome.abortAt site) ∧
    (oc_tx_ucast envA regSt (some chainBad)).trace = [] :=
  oc_tx_ucast_mismatch_no_acquire envA regSt chainBad
    { ep := { oe_type := 1, oe_flags := 0 }, host := 0xAB02, port := 5683 }
    srvReg rfl rfl (Or.inl (by decide))

/-- Claim C5, code-bug evidence: the frame transmit path
`nrf24l01_tx_mbuf` is a TODO stub that returns 0 for every device and every
chain — contradicting its own comment, which says it returns the number of
bytes transmitted — so no transmit ever succeeds; and when it returns a
non-positive count, `oc_tx_ucast` does not return a TransmitFailed error:
it aborts the process at `assert(rc > 0)` (shown here on a 20-byte payload
chain addressed to the registered peer, with the socket present). -/
theorem nrf24l01_tx_mbuf_stub_zero :
    (∀ (d : String) (mb : MbufChain), nrf24l01_tx_mbuf d mb = 0) ∧
    (oc_tx_ucast envA regStSock (some chainOK)).outcome =
      COutcome.abortAt AssertSite.txPositive ∧
    ((oc_tx_ucast envA regStSock (some chainOK)).outcome).isRet = false := by
  refine ⟨fun _ _ => rfl, ?_, ?_⟩ <;> decide

/-- Claim C3, code-bug evidence: `oc_ep_str` ignores max_len entirely: for
max_len = 1 it still performs 15 byte-writes (`strcpy` of the literal
"TODO:oc_ep_str" plus its NUL), 14 of which land at offsets ≥ 1, i.e.
outside a 1-byte buffer; the only NUL write is at offset 14, so no null
terminator lies within the first max_len bytes.  The write list is the same
for every max_len and every endpoint. -/
theorem oc_ep_str_overruns_buffer :
    (oc_ep_str 1 (some epAny)).length = 15 ∧
    ((oc_ep_str 1 (some epAny)).filter (fun w => decide (1 ≤ w.1))).length = 14 ∧
    (oc_ep_str 1 (some epAny)).filter (fun w => w.2 == 0) = [(14, 0)] ∧
    oc_ep_str 1 (some epAny) = oc_ep_str 100 none := by decide

end Nrf24Transport
